import Mathlib

/-!
Shallow embedding of the booking/payment core of the travel-agency CRM
backend (`travel_be`): the capacity calculator (packageService), the
booking lifecycle manager (bookingService), the payment-gateway adapter
(paymentController / midtransService) and the webhook notification
processor (midtransService).

Conventions of the embedding:
* the relational store is a `DB` record of entity lists; Prisma
  `findUnique` becomes `List.find?` on the corresponding list, `update`
  becomes a `List.map` replacing the row with the matching id, `create`
  appends a row;
* monetary amounts (`DECIMAL(12,2)` columns holding integer rupiah
  amounts) and timestamps are modelled as `Nat`;
* fallible service functions return `Except AppError`, mirroring the
  thrown `Error` objects carrying a `statusCode`; an `.error` result
  carries no database, i.e. the store is untouched on failure;
* the external SHA-512 function of the node `crypto` library and the
  external Midtrans provider call are not code of this repository: they
  are passed in as parameters (`sha512 : String → String`, a provider
  response `Option ProviderTransaction`).
-/

namespace TravelBE

/-- Booking lifecycle statuses (prisma enum on the `bookings` table). -/
inductive BookingStatus where
  | PENDING
  | PAID
  | CONFIRMED
  | CANCELED
  | COMPLETED
deriving DecidableEq, Repr

/-- Payment statuses (prisma enum on the `payments` table). -/
inductive PaymentStatus where
  | PENDING
  | SUCCESS
  | FAILED
  | EXPIRED
  | REFUND
deriving DecidableEq, Repr

/-- Customer tiers (prisma enum on the `customers` table). -/
inductive CustomerStatus where
  | PROSPECT
  | ACTIVE
  | LOYAL
deriving DecidableEq, Repr

/-- A row of the `customers` table (core-relevant columns). -/
structure Customer where
  id : Nat
  name : String
  email : String
  status : CustomerStatus
deriving DecidableEq, Repr

/-- A row of the `travel_packages` table (core-relevant columns). -/
structure TravelPackage where
  id : Nat
  name : String
  price : Nat
  quota : Nat
  isActive : Bool
deriving DecidableEq, Repr

/-- A row of the `bookings` table (core-relevant columns). -/
structure Booking where
  id : Nat
  bookingCode : String
  customerId : Nat
  packageId : Nat
  participants : Nat
  totalAmount : Nat
  departureDate : Nat
  status : BookingStatus
  notes : Option String
deriving DecidableEq, Repr

/-- A row of the `payments` table (core-relevant columns). -/
structure Payment where
  id : Nat
  bookingId : Nat
  midtransOrderId : String
  midtransToken : Option String
  paymentUrl : Option String
  amount : Nat
  status : PaymentStatus
  paymentType : Option String
  paidAt : Option Nat
  expiredAt : Nat
deriving DecidableEq, Repr

/-- The relational store. -/
structure DB where
  customers : List Customer
  packages : List TravelPackage
  bookings : List Booking
  payments : List Payment
deriving DecidableEq, Repr

/-- Thrown `Error` objects carrying an HTTP-mappable `statusCode`. -/
structure AppError where
  message : String
  statusCode : Nat
deriving DecidableEq, Repr

/-- The slot-holding statuses used by the prisma status filter (the
in-list PENDING, PAID, CONFIRMED) in `packageService.checkAvailability`. -/
def slotHolding (s : BookingStatus) : Bool :=
  match s with
  | .PENDING => true
  | .PAID => true
  | .CONFIRMED => true
  | _ => false

/-- Result shape of `packageService.checkAvailability`. `availableSlots`
is `quota - bookedParticipants`, which can be negative in the source
(plain JS subtraction), hence `Int`. -/
structure Availability where
  isAvailable : Bool
  availableSlots : Int
  requestedParticipants : Nat
deriving DecidableEq, Repr

/-- `packageService.checkAvailability(packageId, participants)`:
looks up the package (404 if absent, 400 if inactive), sums the
`participants` over the bookings of the package whose status is in the
slot-holding set, and returns
`{ isAvailable: availableSlots >= participants, availableSlots }`. -/
def checkAvailability (db : DB) (packageId : Nat) (participants : Nat) :
    Except AppError Availability :=
  match db.packages.find? (fun p => p.id == packageId) with
  | none => .error ⟨"Travel package not found", 404⟩
  | some travelPackage =>
    if !travelPackage.isActive then
      .error ⟨"Travel package is not available", 400⟩
    else
      let holding :=
        db.bookings.filter (fun b => b.packageId == packageId && slotHolding b.status)
      let bookedParticipants : Int :=
        holding.foldl (fun sum b => sum + (b.participants : Int)) 0
      let availableSlots : Int := (travelPackage.quota : Int) - bookedParticipants
      .ok ⟨decide (availableSlots ≥ (participants : Int)), availableSlots, participants⟩

/-- The statuses counted by `customerService.updateCustomerStatus`
(the prisma status in-list PAID, CONFIRMED, COMPLETED). -/
def paidLike (s : BookingStatus) : Bool :=
  match s with
  | .PAID => true
  | .CONFIRMED => true
  | .COMPLETED => true
  | _ => false

/-- `customerService.updateCustomerStatus(customerId)`: counts the
bookings of the customer in a paid-like status and writes the derived
tier (LOYAL if at least 3, ACTIVE if at least 1, else PROSPECT) onto the
customer row. A prisma `update` targets the unique id; it is modelled as
a map over the customer list. -/
def updateCustomerStatus (db : DB) (customerId : Nat) : DB :=
  let bookingsCount :=
    (db.bookings.filter (fun b => b.customerId == customerId && paidLike b.status)).length
  let newStatus : CustomerStatus :=
    if bookingsCount ≥ 3 then .LOYAL
    else if bookingsCount ≥ 1 then .ACTIVE
    else .PROSPECT
  { db with
    customers := db.customers.map
      (fun c => if c.id == customerId then { c with status := newStatus } else c) }

/-- Input payload of `bookingService.createBooking`. -/
structure BookingData where
  customerId : Nat
  packageId : Nat
  participants : Nat
  departureDate : Nat
  notes : Option String
deriving DecidableEq, Repr

/-- `bookingService.createBooking(bookingData)`: verifies the customer
exists (`customerService.getCustomerById`, 404), resolves the package
(`packageService.getPackageById`, 404), rejects an inactive package
(400), runs `checkAvailability` and rejects when not available (400),
computes `totalAmount = price * participants` and persists a PENDING
booking. The auto-increment row id and the `bookingCode` (generated by
the ORM default, outside this source) enter as the `freshId` /
`freshCode` parameters. -/
def createBooking (db : DB) (freshId : Nat) (freshCode : String)
    (data : BookingData) : Except AppError (Booking × DB) :=
  match db.customers.find? (fun c => c.id == data.customerId) with
  | none => .error ⟨"Customer not found", 404⟩
  | some _ =>
    match db.packages.find? (fun p => p.id == data.packageId) with
    | none => .error ⟨"Travel package not found", 404⟩
    | some travelPackage =>
      if !travelPackage.isActive then
        .error ⟨"This travel package is not available", 400⟩
      else
        match checkAvailability db data.packageId data.participants with
        | .error e => .error e
        | .ok availability =>
          if !availability.isAvailable then
            .error ⟨"Not enough slots available. Only " ++
              toString availability.availableSlots ++ " slots left.", 400⟩
          else
            let totalAmount := travelPackage.price * data.participants
            let booking : Booking :=
              ⟨freshId, freshCode, data.customerId, data.packageId,
               data.participants, totalAmount, data.departureDate, .PENDING, data.notes⟩
            .ok (booking, { db with bookings := db.bookings ++ [booking] })

/-- Patch object accepted by `bookingService.updateBooking` (the fields
the booking validator lets through). -/
structure BookingPatch where
  participants : Option Nat
  departureDate : Option Nat
  notes : Option String
deriving DecidableEq, Repr

/-- The prisma `booking.update` at the end of `updateBooking`: fields
present in the patch (plus a recalculated `totalAmount`, when the
participants branch ran) overwrite the row. -/
def applyBookingPatch (b : Booking) (newParticipants : Option Nat)
    (newTotal : Option Nat) (patch : BookingPatch) : Booking :=
  { b with
    participants := newParticipants.getD b.participants
    totalAmount := newTotal.getD b.totalAmount
    departureDate := patch.departureDate.getD b.departureDate
    notes := match patch.notes with
      | some n => some n
      | none => b.notes }

/-- Writes the patched row back into the booking list and returns it
together with the new store. -/
def updateBookingRow (db : DB) (id : Nat) (existingBooking : Booking)
    (newParticipants : Option Nat) (newTotal : Option Nat) (patch : BookingPatch) :
    Except AppError (Booking × DB) :=
  let updated := applyBookingPatch existingBooking newParticipants newTotal patch
  .ok (updated,
    { db with
      bookings := db.bookings.map
        (fun b => if b.id == id then applyBookingPatch b newParticipants newTotal patch else b) })

/-- `bookingService.updateBooking(id, updateData)`: loads the booking
(404 if absent), rejects PAID / CONFIRMED / COMPLETED bookings (400),
and when the participant count is present, non-zero (a JS truthiness
check) and different, recalculates `totalAmount` from the package price
and, when the count grew, re-checks availability for the delta (400 if
insufficient). The `include: { package: true }` of `getBookingById` is
modelled by the package lookup in the recalculation branch; a dangling
`packageId` (impossible under the foreign key) is mapped to a 500. -/
def updateBooking (db : DB) (id : Nat) (patch : BookingPatch) :
    Except AppError (Booking × DB) :=
  match db.bookings.find? (fun b => b.id == id) with
  | none => .error ⟨"Booking not found", 404⟩
  | some existingBooking =>
    if existingBooking.status = .PAID ∨ existingBooking.status = .CONFIRMED ∨
        existingBooking.status = .COMPLETED then
      .error ⟨"Cannot modify a booking that is already paid or completed", 400⟩
    else
      match patch.participants with
      | some newParticipants =>
        if newParticipants ≠ 0 ∧ newParticipants ≠ existingBooking.participants then
          match db.packages.find? (fun p => p.id == existingBooking.packageId) with
          | none => .error ⟨"Cannot read properties of null", 500⟩
          | some travelPackage =>
            let newTotal := travelPackage.price * newParticipants
            if newParticipants > existingBooking.participants then
              match checkAvailability db existingBooking.packageId
                  (newParticipants - existingBooking.participants) with
              | .error e => .error e
              | .ok availability =>
                if !availability.isAvailable then
                  .error ⟨"Not enough slots available for additional participants", 400⟩
                else
                  updateBookingRow db id existingBooking (some newParticipants)
                    (some newTotal) patch
            else
              updateBookingRow db id existingBooking (some newParticipants)
                (some newTotal) patch
        else
          updateBookingRow db id existingBooking patch.participants none patch
      | none => updateBookingRow db id existingBooking none none patch

/-- `bookingService.cancelBooking(id)`: loads the booking (404 if
absent), rejects only COMPLETED bookings (400), and otherwise sets the
status to CANCELED. -/
def cancelBooking (db : DB) (id : Nat) : Except AppError (Booking × DB) :=
  match db.bookings.find? (fun b => b.id == id) with
  | none => .error ⟨"Booking not found", 404⟩
  | some booking =>
    if booking.status = .COMPLETED then
      .error ⟨"Cannot cancel a completed booking", 400⟩
    else
      .ok ({ booking with status := .CANCELED },
        { db with
          bookings := db.bookings.map
            (fun b => if b.id == id then { b with status := BookingStatus.CANCELED } else b) })

/-- A Midtrans webhook notification payload (the fields
`midtransService` destructures; `fraud_status` is optional). -/
structure Notification where
  order_id : String
  transaction_status : String
  fraud_status : Option String
  payment_type : String
  gross_amount : String
  status_code : String
  signature_key : String
deriving DecidableEq, Repr

/-- `midtransService.verifySignature(notification)`:
`SHA512(order_id + status_code + gross_amount + serverKey)` compared
with the supplied `signature_key`. The SHA-512 function of the node
`crypto` library is external to this repository and enters as the
`sha512` parameter. -/
def verifySignature (sha512 : String → String) (serverKey : String)
    (n : Notification) : Bool :=
  sha512 (n.order_id ++ n.status_code ++ n.gross_amount ++ serverKey) == n.signature_key

/-- The `paymentStatus` variable of `processNotification`: initialised
to PENDING and reassigned by the `transaction_status` / `fraud_status`
branch chain. A `capture` whose fraud status is neither `accept` nor
`challenge` keeps the PENDING initial value, exactly as the `challenge`
branch does, so the two collapse into one else-branch. -/
def mapPaymentStatus (transactionStatus : String) (fraudStatus : Option String) :
    PaymentStatus :=
  if transactionStatus == "capture" then
    if fraudStatus == some "accept" then .SUCCESS else .PENDING
  else if transactionStatus == "settlement" then .SUCCESS
  else if transactionStatus == "pending" then .PENDING
  else if transactionStatus == "deny" || transactionStatus == "cancel" then .FAILED
  else if transactionStatus == "expire" then .EXPIRED
  else if transactionStatus == "refund" then .REFUND
  else .PENDING

/-- The `bookingStatus` variable of `processNotification`: initialised
to the current booking status and reassigned only by the
capture-accept, settlement, deny, cancel and expire branches. -/
def mapBookingStatus (transactionStatus : String) (fraudStatus : Option String)
    (current : BookingStatus) : BookingStatus :=
  if transactionStatus == "capture" then
    if fraudStatus == some "accept" then .PAID else current
  else if transactionStatus == "settlement" then .PAID
  else if transactionStatus == "deny" || transactionStatus == "cancel" then .CANCELED
  else if transactionStatus == "expire" then .CANCELED
  else current

/-- The `prisma.payment.update` of `processNotification`: writes the
mapped status, the payload `payment_type`, and `paidAt = now` when the
mapped status is SUCCESS, else `paidAt = null`. -/
def notifUpdatedPayment (payment : Payment) (n : Notification) (now : Nat) : Payment :=
  let paymentStatus := mapPaymentStatus n.transaction_status n.fraud_status
  { payment with
    status := paymentStatus
    paymentType := some n.payment_type
    paidAt := if paymentStatus = .SUCCESS then some now else none }

/-- The store after the `prisma.payment.update` of
`processNotification`: the payment row is rewritten in place. -/
def notifUpdatedDBPayments (db : DB) (n : Notification) (now : Nat)
    (payment : Payment) : DB :=
  { db with
    payments := db.payments.map
      (fun p => if p.id == payment.id then notifUpdatedPayment payment n now else p) }

/-- The store after the `prisma.booking.update` of `processNotification`
(run only when the mapped booking status differs): on top of the payment
update, the booking row gets the mapped status. -/
def notifUpdatedDBBookings (db : DB) (n : Notification) (now : Nat)
    (payment : Payment) (booking : Booking) : DB :=
  { notifUpdatedDBPayments db n now payment with
    bookings := db.bookings.map
      (fun b => if b.id == payment.bookingId then
        { b with status := mapBookingStatus n.transaction_status n.fraud_status booking.status }
      else b) }

/-- The store after the update block of `processNotification`: the
payment row is rewritten; when the mapped booking status differs from
the current one the booking row is rewritten as well, and, when the new
status is PAID, `customerService.updateCustomerStatus` runs for the
booking customer. -/
def notifUpdatedDB (db : DB) (n : Notification) (now : Nat)
    (payment : Payment) (booking : Booking) : DB :=
  if mapBookingStatus n.transaction_status n.fraud_status booking.status ≠ booking.status then
    if mapBookingStatus n.transaction_status n.fraud_status booking.status = .PAID then
      updateCustomerStatus (notifUpdatedDBBookings db n now payment booking) booking.customerId
    else
      notifUpdatedDBBookings db n now payment booking
  else
    notifUpdatedDBPayments db n now payment

/-- `midtransService.processNotification(notification)`: verifies the
signature (403 on mismatch, before touching the store), resolves the
payment by `midtransOrderId` (404 if absent), and applies the mapped
status updates. The `include: { booking: true }` is modelled by the
booking lookup; a dangling `bookingId` (impossible under the foreign
key, a null dereference in the JS) is mapped to a 500. `now` is the
`new Date()` timestamp of the delivery. -/
def processNotification (sha512 : String → String) (serverKey : String)
    (now : Nat) (db : DB) (n : Notification) : Except AppError (Payment × DB) :=
  if !verifySignature sha512 serverKey n then
    .error ⟨"Invalid signature", 403⟩
  else
    match db.payments.find? (fun p => p.midtransOrderId == n.order_id) with
    | none => .error ⟨"Payment not found", 404⟩
    | some payment =>
      match db.bookings.find? (fun b => b.id == payment.bookingId) with
      | none => .error ⟨"Payment booking missing", 500⟩
      | some booking =>
        .ok (notifUpdatedPayment payment n now, notifUpdatedDB db n now payment booking)

/-- The `token` / `redirect_url` pair returned by the external
`snap.createTransaction` provider call. -/
structure ProviderTransaction where
  token : String
  redirect_url : String
deriving DecidableEq, Repr

/-- `midtransService.createSnapTransaction(booking)`: builds the order
id `TRV-<bookingCode>-<Date.now()>`, calls the external provider (its
response enters as the `provider` parameter, `none` when the call
fails), and on success persists a PENDING payment row carrying the
token, the redirect URL, `amount = booking.totalAmount` and an expiry
24 hours (in milliseconds) after `now`. On provider failure a 500 is
raised and no payment row is persisted. `freshPaymentId` is the
auto-increment row id. -/
def createSnapTransaction (provider : Option ProviderTransaction) (now : Nat)
    (freshPaymentId : Nat) (db : DB) (booking : Booking) :
    Except AppError (Payment × String × String × DB) :=
  let orderId := "TRV-" ++ booking.bookingCode ++ "-" ++ toString now
  match provider with
  | none => .error ⟨"Failed to create payment transaction", 500⟩
  | some transaction =>
    let expiredAt := now + 24 * 60 * 60 * 1000
    let payment : Payment :=
      ⟨freshPaymentId, booking.id, orderId, some transaction.token,
       some transaction.redirect_url, booking.totalAmount, .PENDING, none, none, expiredAt⟩
    .ok (payment, transaction.token, transaction.redirect_url,
      { db with payments := db.payments ++ [payment] })

/-- The authenticated caller of the payment controller
(`req.user`): staff or customer. -/
structure ReqUser where
  type : String
  id : Nat
deriving DecidableEq, Repr

/-- Shape of the controller JSON responses of `initiatePayment`
(HTTP status plus body fields). -/
structure InitiatePaymentResponse where
  httpStatus : Nat
  success : Bool
  message : String
  snapToken : Option String
  redirectUrl : Option String
deriving DecidableEq, Repr

/-- The create path of `paymentController.initiatePayment`: delegates
to `createSnapTransaction` and wraps its token / URL in a 200 body. -/
def initiatePaymentCreate (provider : Option ProviderTransaction) (now : Nat)
    (freshPaymentId : Nat) (db : DB) (booking : Booking) :
    Except AppError (InitiatePaymentResponse × DB) :=
  match createSnapTransaction provider now freshPaymentId db booking with
  | .error e => .error e
  | .ok (_, token, url, db1) =>
    .ok (⟨200, true, "Payment initiated successfully", some token, some url⟩, db1)

/-- `paymentController.initiatePayment(req)`: loads the booking with its
payment (404 if absent), enforces the customer ownership boundary (403
body), rejects a booking that is not PENDING (400 body), returns the
stored token / URL idempotently when a PENDING payment already exists,
and otherwise creates the Snap transaction. The 1:1
`include: { payment: true }` is modelled by a `find?` over the payment
list by `bookingId`. -/
def initiatePayment (provider : Option ProviderTransaction) (now : Nat)
    (freshPaymentId : Nat) (db : DB) (user : ReqUser) (bookingId : Nat) :
    Except AppError (InitiatePaymentResponse × DB) :=
  match db.bookings.find? (fun b => b.id == bookingId) with
  | none => .error ⟨"Booking not found", 404⟩
  | some booking =>
    if user.type == "CUSTOMER" && booking.customerId != user.id then
      .ok (⟨403, false, "Access denied", none, none⟩, db)
    else if booking.status ≠ .PENDING then
      .ok (⟨400, false, "Payment can only be initiated for pending bookings", none, none⟩, db)
    else
      match db.payments.find? (fun p => p.bookingId == bookingId) with
      | some existingPayment =>
        if existingPayment.status = .PENDING then
          .ok (⟨200, true, "Payment already initiated",
            existingPayment.midtransToken, existingPayment.paymentUrl⟩, db)
        else
          initiatePaymentCreate provider now freshPaymentId db booking
      | none => initiatePaymentCreate provider now freshPaymentId db booking

/-- The status of the booking row with the given id, if present. -/
def DB.bookingStatusOf (db : DB) (id : Nat) : Option BookingStatus :=
  (db.bookings.find? (fun b => b.id == id)).map Booking.status

/-! ### List lemmas for row updates -/

/-- `find?` after an update that replaces the row keyed `i` with a row
`z` still satisfying the search predicate returns `z`. -/
theorem find?_map_replace {α : Type} (key : α → Nat) (q : α → Bool) (i : Nat) (z : α)
    (hz : q z = true) :
    ∀ (l : List α) (x : α), l.find? q = some x → key x = i →
      (l.map (fun y => if key y == i then z else y)).find? q = some z := by
  intro l
  induction l with
  | nil => intro x hx _; simp at hx
  | cons a t ih =>
    intro x hx hkey
    by_cases ha : q a = true
    · rw [List.find?_cons_of_pos _ ha] at hx
      injection hx with h
      subst h
      simp only [List.map_cons]
      rw [if_pos (beq_iff_eq.mpr hkey)]
      exact List.find?_cons_of_pos _ hz
    · rw [List.find?_cons_of_neg _ ha] at hx
      simp only [List.map_cons]
      by_cases hk : (key a == i) = true
      · rw [if_pos hk]
        exact List.find?_cons_of_pos _ hz
      · rw [if_neg hk, List.find?_cons_of_neg _ ha]
        exact ih x hx hkey

/-- Searching by key after an in-place modification of the row with
that key returns the modified row. -/
theorem find?_map_modify {α : Type} (key : α → Nat) (i : Nat) (f : α → α)
    (hkey : ∀ y, key (f y) = key y) :
    ∀ l : List α,
      (l.map (fun y => if key y == i then f y else y)).find? (fun y => key y == i)
        = (l.find? (fun y => key y == i)).map f := by
  intro l
  induction l with
  | nil => rfl
  | cons a t ih =>
    simp only [List.map_cons]
    by_cases h : (key a == i) = true
    · have h1 : (key (f a) == i) = true := by rw [hkey a]; exact h
      rw [if_pos h]
      simp only [List.find?_cons, h, h1]
      rfl
    · rw [if_neg h]
      simp only [List.find?_cons]
      rw [Bool.not_eq_true] at h
      simp only [h, ih]

/-- Replacing the row keyed `i` twice equals replacing it once with the
second value (the first replacement must carry the key). -/
theorem map_replace_twice {α : Type} (key : α → Nat) (i : Nat) (z₁ z₂ : α)
    (h : key z₁ = i) (l : List α) :
    ((l.map (fun y => if key y == i then z₁ else y)).map
        (fun y => if key y == i then z₂ else y))
      = l.map (fun y => if key y == i then z₂ else y) := by
  rw [List.map_map]
  congr 1
  funext y
  by_cases hy : (key y == i) = true
  · simp only [Function.comp_apply, if_pos hy]
    rw [if_pos (beq_iff_eq.mpr h)]
  · simp only [Function.comp_apply, if_neg hy]

/-- Appending a row that satisfies the predicate to a list where the
search fails makes the search return the new row. -/
theorem find?_append_singleton_of_none {α : Type} (q : α → Bool) (x : α)
    (hx : q x = true) :
    ∀ l : List α, l.find? q = none → (l ++ [x]).find? q = some x := by
  intro l
  induction l with
  | nil =>
    intro _
    exact List.find?_cons_of_pos _ hx
  | cons a t ih =>
    intro h
    have ha : ¬ (q a = true) := by
      intro hqa
      rw [List.find?_cons_of_pos _ hqa] at h
      exact Option.noConfusion h
    have ht : t.find? q = none := by
      rw [List.find?_cons_of_neg _ ha] at h
      exact h
    rw [List.cons_append, List.find?_cons_of_neg _ ha]
    exact ih ht

/-! ### Status-mapping lemmas -/

theorem mapPaymentStatus_capture_accept :
    mapPaymentStatus "capture" (some "accept") = .SUCCESS := rfl

theorem mapPaymentStatus_capture_other (fs : Option String)
    (h : (fs == some "accept") = false) :
    mapPaymentStatus "capture" fs = .PENDING := by
  unfold mapPaymentStatus
  simp [h]

theorem mapPaymentStatus_settlement (fs : Option String) :
    mapPaymentStatus "settlement" fs = .SUCCESS := rfl

theorem mapPaymentStatus_pending (fs : Option String) :
    mapPaymentStatus "pending" fs = .PENDING := rfl

theorem mapPaymentStatus_deny (fs : Option String) :
    mapPaymentStatus "deny" fs = .FAILED := rfl

theorem mapPaymentStatus_cancel (fs : Option String) :
    mapPaymentStatus "cancel" fs = .FAILED := rfl

theorem mapPaymentStatus_expire (fs : Option String) :
    mapPaymentStatus "expire" fs = .EXPIRED := rfl

theorem mapPaymentStatus_refund (fs : Option String) :
    mapPaymentStatus "refund" fs = .REFUND := rfl

theorem mapPaymentStatus_other (ts : String) (fs : Option String)
    (h1 : (ts == "capture") = false) (h2 : (ts == "settlement") = false)
    (h3 : (ts == "pending") = false) (h4 : (ts == "deny") = false)
    (h5 : (ts == "cancel") = false) (h6 : (ts == "expire") = false)
    (h7 : (ts == "refund") = false) :
    mapPaymentStatus ts fs = .PENDING := by
  unfold mapPaymentStatus
  simp [h1, h2, h3, h4, h5, h6, h7]

theorem mapBookingStatus_capture_accept (cur : BookingStatus) :
    mapBookingStatus "capture" (some "accept") cur = .PAID := rfl

theorem mapBookingStatus_capture_other (fs : Option String) (cur : BookingStatus)
    (h : (fs == some "accept") = false) :
    mapBookingStatus "capture" fs cur = cur := by
  unfold mapBookingStatus
  simp [h]

theorem mapBookingStatus_settlement (fs : Option String) (cur : BookingStatus) :
    mapBookingStatus "settlement" fs cur = .PAID := rfl

theorem mapBookingStatus_pending (fs : Option String) (cur : BookingStatus) :
    mapBookingStatus "pending" fs cur = cur := rfl

theorem mapBookingStatus_deny (fs : Option String) (cur : BookingStatus) :
    mapBookingStatus "deny" fs cur = .CANCELED := rfl

theorem mapBookingStatus_cancel (fs : Option String) (cur : BookingStatus) :
    mapBookingStatus "cancel" fs cur = .CANCELED := rfl

theorem mapBookingStatus_expire (fs : Option String) (cur : BookingStatus) :
    mapBookingStatus "expire" fs cur = .CANCELED := rfl

theorem mapBookingStatus_refund (fs : Option String) (cur : BookingStatus) :
    mapBookingStatus "refund" fs cur = cur := rfl

theorem mapBookingStatus_other (ts : String) (fs : Option String) (cur : BookingStatus)
    (h1 : (ts == "capture") = false) (h2 : (ts == "settlement") = false)
    (h4 : (ts == "deny") = false) (h5 : (ts == "cancel") = false)
    (h6 : (ts == "expire") = false) :
    mapBookingStatus ts fs cur = cur := by
  unfold mapBookingStatus
  simp [h1, h2, h4, h5, h6]

/-- The booking-status mapping is idempotent in its current-status
argument: each branch either writes a constant or keeps the current
status. -/
theorem mapBookingStatus_idem (ts : String) (fs : Option String) (cur : BookingStatus) :
    mapBookingStatus ts fs (mapBookingStatus ts fs cur) = mapBookingStatus ts fs cur := by
  unfold mapBookingStatus
  split_ifs <;> rfl

/-! ### Unfolding lemmas for the webhook processor -/

theorem updateCustomerStatus_bookings (db : DB) (cid : Nat) :
    (updateCustomerStatus db cid).bookings = db.bookings := rfl

theorem updateCustomerStatus_payments (db : DB) (cid : Nat) :
    (updateCustomerStatus db cid).payments = db.payments := rfl

theorem processNotification_ok (sha512 : String → String) (serverKey : String)
    (now : Nat) (db : DB) (n : Notification) (payment : Payment) (booking : Booking)
    (hsig : verifySignature sha512 serverKey n = true)
    (hp : db.payments.find? (fun p => p.midtransOrderId == n.order_id) = some payment)
    (hb : db.bookings.find? (fun b => b.id == payment.bookingId) = some booking) :
    processNotification sha512 serverKey now db n =
      .ok (notifUpdatedPayment payment n now, notifUpdatedDB db n now payment booking) := by
  unfold processNotification
  simp only [hsig, hp, hb, Bool.not_true]
  rfl

theorem notifUpdatedDB_of_same (db : DB) (n : Notification) (now : Nat)
    (payment : Payment) (booking : Booking)
    (h : mapBookingStatus n.transaction_status n.fraud_status booking.status = booking.status) :
    notifUpdatedDB db n now payment booking = notifUpdatedDBPayments db n now payment := by
  unfold notifUpdatedDB
  rw [if_neg (by simp [h])]

theorem notifUpdatedDB_of_diff_paid (db : DB) (n : Notification) (now : Nat)
    (payment : Payment) (booking : Booking)
    (h : mapBookingStatus n.transaction_status n.fraud_status booking.status ≠ booking.status)
    (hpaid : mapBookingStatus n.transaction_status n.fraud_status booking.status = .PAID) :
    notifUpdatedDB db n now payment booking =
      updateCustomerStatus (notifUpdatedDBBookings db n now payment booking)
        booking.customerId := by
  unfold notifUpdatedDB
  rw [if_pos h, if_pos hpaid]

theorem notifUpdatedDB_of_diff_notpaid (db : DB) (n : Notification) (now : Nat)
    (payment : Payment) (booking : Booking)
    (h : mapBookingStatus n.transaction_status n.fraud_status booking.status ≠ booking.status)
    (hpaid : mapBookingStatus n.transaction_status n.fraud_status booking.status ≠ .PAID) :
    notifUpdatedDB db n now payment booking =
      notifUpdatedDBBookings db n now payment booking := by
  unfold notifUpdatedDB
  rw [if_pos h, if_neg hpaid]

/-- Specialisation of `find?_map_modify` to booking rows, phrased with
the literal row-update lambda of the service functions. -/
theorem find?_booking_update (i : Nat) (f : Booking → Booking)
    (hkey : ∀ b, (f b).id = b.id) (l : List Booking) :
    (l.map (fun b => if b.id == i then f b else b)).find? (fun b => b.id == i)
      = (l.find? (fun b => b.id == i)).map f :=
  find?_map_modify (fun b => b.id) i f hkey l

/-- Specialisation of `find?_map_replace` to payment rows. -/
theorem find?_payment_replace (q : Payment → Bool) (i : Nat) (z : Payment)
    (hz : q z = true) (l : List Payment) (x : Payment)
    (hf : l.find? q = some x) (hx : x.id = i) :
    (l.map (fun p => if p.id == i then z else p)).find? q = some z :=
  find?_map_replace (fun p => p.id) q i z hz l x hf hx

/-- Specialisation of `map_replace_twice` to payment rows. -/
theorem map_payment_replace_twice (i : Nat) (z₁ z₂ : Payment) (h : z₁.id = i)
    (l : List Payment) :
    ((l.map (fun p => if p.id == i then z₁ else p)).map
        (fun p => if p.id == i then z₂ else p))
      = l.map (fun p => if p.id == i then z₂ else p) :=
  map_replace_twice (fun p => p.id) i z₁ z₂ h l

theorem notifUpdatedDB_bookings_of_same (db : DB) (n : Notification) (now : Nat)
    (payment : Payment) (booking : Booking)
    (h : mapBookingStatus n.transaction_status n.fraud_status booking.status = booking.status) :
    (notifUpdatedDB db n now payment booking).bookings = db.bookings := by
  rw [notifUpdatedDB_of_same _ _ _ _ _ h]
  rfl

theorem notifUpdatedDB_customers_of_same (db : DB) (n : Notification) (now : Nat)
    (payment : Payment) (booking : Booking)
    (h : mapBookingStatus n.transaction_status n.fraud_status booking.status = booking.status) :
    (notifUpdatedDB db n now payment booking).customers = db.customers := by
  rw [notifUpdatedDB_of_same _ _ _ _ _ h]
  rfl

/-- After the webhook update block, the booking row of the processed
payment carries the mapped status (whether or not the row had to be
rewritten). -/
theorem notifUpdatedDB_bookingStatusOf (db : DB) (n : Notification) (now : Nat)
    (payment : Payment) (booking : Booking)
    (hb : db.bookings.find? (fun b => b.id == payment.bookingId) = some booking) :
    (notifUpdatedDB db n now payment booking).bookingStatusOf payment.bookingId =
      some (mapBookingStatus n.transaction_status n.fraud_status booking.status) := by
  by_cases h : mapBookingStatus n.transaction_status n.fraud_status booking.status
      = booking.status
  · rw [notifUpdatedDB_of_same _ _ _ _ _ h]
    show (db.bookings.find? (fun b => b.id == payment.bookingId)).map Booking.status
      = some (mapBookingStatus n.transaction_status n.fraud_status booking.status)
    rw [hb, h]
    rfl
  · have core :
        ((notifUpdatedDBBookings db n now payment booking).bookings.find?
            (fun b => b.id == payment.bookingId)).map Booking.status
          = some (mapBookingStatus n.transaction_status n.fraud_status booking.status) := by
      show ((db.bookings.map (fun b => if b.id == payment.bookingId then
          { b with status := mapBookingStatus n.transaction_status n.fraud_status booking.status }
        else b)).find? (fun b => b.id == payment.bookingId)).map Booking.status = _
      rw [find?_booking_update payment.bookingId
        (fun b => { b with
          status := mapBookingStatus n.transaction_status n.fraud_status booking.status })
        (fun b => rfl), hb]
      rfl
    by_cases hpaid : mapBookingStatus n.transaction_status n.fraud_status booking.status
        = .PAID
    · rw [notifUpdatedDB_of_diff_paid _ _ _ _ _ h hpaid]
      show ((updateCustomerStatus (notifUpdatedDBBookings db n now payment booking)
          booking.customerId).bookings.find? (fun b => b.id == payment.bookingId)).map
          Booking.status = _
      rw [updateCustomerStatus_bookings]
      exact core
    · rw [notifUpdatedDB_of_diff_notpaid _ _ _ _ _ h hpaid]
      exact core

/-- Whatever the booking branch does, the payments list after the
webhook update block is the payment row rewritten in place. -/
theorem notifUpdatedDB_payments (db : DB) (n : Notification) (now : Nat)
    (payment : Payment) (booking : Booking) :
    (notifUpdatedDB db n now payment booking).payments =
      db.payments.map
        (fun p => if p.id == payment.id then notifUpdatedPayment payment n now else p) := by
  unfold notifUpdatedDB
  split_ifs <;> rfl

/-- The bookings list after the webhook update block when the mapped
status differs from the stored one: the booking row gets the mapped
status. -/
theorem notifUpdatedDB_bookings_of_diff (db : DB) (n : Notification) (now : Nat)
    (payment : Payment) (booking : Booking)
    (h : mapBookingStatus n.transaction_status n.fraud_status booking.status
      ≠ booking.status) :
    (notifUpdatedDB db n now payment booking).bookings =
      db.bookings.map (fun b => if b.id == payment.bookingId then
        { b with status := mapBookingStatus n.transaction_status n.fraud_status booking.status }
      else b) := by
  by_cases hpaid : mapBookingStatus n.transaction_status n.fraud_status booking.status
      = .PAID
  · rw [notifUpdatedDB_of_diff_paid _ _ _ _ _ h hpaid, updateCustomerStatus_bookings]
    rfl
  · rw [notifUpdatedDB_of_diff_notpaid _ _ _ _ _ h hpaid]
    rfl

/-! ### Fixtures for witnesses and counterexamples -/

def fxCustomer : Customer := ⟨1, "Alice", "alice@example.com", .PROSPECT⟩

def fxPackage : TravelPackage := ⟨1, "Bali Trip", 3500000, 10, true⟩

/-- Scenario A store: quota 10, one PENDING booking of 7 participants. -/
def dbAvail : DB :=
  { customers := [fxCustomer]
    packages := [fxPackage]
    bookings := [⟨1, "BK-1", 1, 1, 7, 24500000, 0, .PENDING, none⟩]
    payments := [] }

/-- A store holding a PAID booking. -/
def dbPaidBooking : DB :=
  { customers := [fxCustomer]
    packages := [fxPackage]
    bookings := [⟨1, "BK-1", 1, 1, 2, 7000000, 0, .PAID, none⟩]
    payments := [] }

/-- A store with a PENDING booking and its PENDING payment, reachable
by a Midtrans order id. -/
def dbPendingPayment : DB :=
  { customers := [fxCustomer]
    packages := [fxPackage]
    bookings := [⟨1, "BK-1", 1, 1, 2, 7000000, 0, .PENDING, none⟩]
    payments := [⟨1, 1, "ORD-1", some "tok", some "url", 7000000, .PENDING, none, none, 99⟩] }

/-- A settlement notification for order `ORD-1`, signed for the
identity hash and server key `key`. -/
def settleNotif : Notification :=
  { order_id := "ORD-1", transaction_status := "settlement", fraud_status := none
    payment_type := "bank_transfer", gross_amount := "7000000.00", status_code := "200"
    signature_key := "ORD-12007000000.00key" }

/-! ### C4: invalid webhook signature is rejected with 403 -/

/-- C4: `processNotification` recomputes the hash of
`order_id ++ status_code ++ gross_amount ++ serverKey` and, when it
differs from the payload `signature_key`, fails with a 403
`Invalid signature` error; the returned `Except.error` carries no store,
i.e. no Payment, Booking or Customer row is touched. -/
theorem processNotification_invalid_signature (sha512 : String → String)
    (serverKey : String) (now : Nat) (db : DB) (n : Notification)
    (h : sha512 (n.order_id ++ n.status_code ++ n.gross_amount ++ serverKey)
      ≠ n.signature_key) :
    processNotification sha512 serverKey now db n =
      .error ⟨"Invalid signature", 403⟩ := by
  have hv : verifySignature sha512 serverKey n = false := by
    unfold verifySignature
    exact beq_eq_false_iff_ne.mpr h
  simp only [processNotification, hv, Bool.not_false, if_true]

/-- C4 witness: a settlement payload whose signature was tampered
with is rejected. -/
theorem processNotification_invalid_signature_witness :
    processNotification (fun s => s) "key" 0 dbPendingPayment
      { settleNotif with signature_key := "forged" } =
      .error ⟨"Invalid signature", 403⟩ :=
  processNotification_invalid_signature (fun s => s) "key" 0 dbPendingPayment
    { settleNotif with signature_key := "forged" } (by decide)

/-! ### C5: availability computation -/

/-- C5: `checkAvailability` fails 404 when the package is absent and
400 when it is inactive (read-only, no store is threaded through at
all); otherwise it returns `availableSlots` equal to the quota minus
the summed participants of the PENDING / PAID / CONFIRMED bookings of
the package, with `isAvailable` true exactly when the requested count
fits. -/
theorem checkAvailability_spec (db : DB) (packageId requested : Nat) :
    (db.packages.find? (fun p => p.id == packageId) = none →
      checkAvailability db packageId requested =
        .error ⟨"Travel package not found", 404⟩) ∧
    (∀ travelPackage, db.packages.find? (fun p => p.id == packageId) = some travelPackage →
      travelPackage.isActive = false →
      checkAvailability db packageId requested =
        .error ⟨"Travel package is not available", 400⟩) ∧
    (∀ travelPackage, db.packages.find? (fun p => p.id == packageId) = some travelPackage →
      travelPackage.isActive = true →
      ∃ availability, checkAvailability db packageId requested = .ok availability ∧
        availability.availableSlots = (travelPackage.quota : Int) -
          ((db.bookings.filter
              (fun b => b.packageId == packageId && slotHolding b.status)).map
            (fun b => (b.participants : Int))).sum ∧
        (availability.isAvailable = true ↔
          (requested : Int) ≤ availability.availableSlots) ∧
        availability.requestedParticipants = requested) := by
  refine ⟨?_, ?_, ?_⟩
  · intro h
    simp only [checkAvailability, h]
  · intro travelPackage hp hin
    simp only [checkAvailability, hp, hin, Bool.not_false, if_true]
  · intro travelPackage hp hact
    simp only [checkAvailability, hp, hact, Bool.not_true, Bool.false_eq_true, if_false]
    refine ⟨_, rfl, ?_, ?_, rfl⟩
    · rw [List.sum_eq_foldl, List.foldl_map]
    · simp only [decide_eq_true_eq, ge_iff_le]

/-- C5 witness (Scenario A second half): quota 10 with a PENDING
booking of 7 leaves 3 slots, so a request for 4 is unavailable. -/
theorem checkAvailability_spec_witness :
    ∃ availability, checkAvailability dbAvail 1 4 = .ok availability ∧
      availability.availableSlots = (10 : Int) -
        ((dbAvail.bookings.filter
            (fun b => b.packageId == 1 && slotHolding b.status)).map
          (fun b => (b.participants : Int))).sum ∧
      (availability.isAvailable = true ↔ (4 : Int) ≤ availability.availableSlots) ∧
      availability.requestedParticipants = 4 :=
  (checkAvailability_spec dbAvail 1 4).2.2 fxPackage (by decide) (by decide)

/-! ### C6: booking creation computes the PENDING booking and the total -/

/-- C6: when the customer exists, the package exists and is active, and
the availability check reports enough slots, `createBooking` persists a
booking with status PENDING and
`totalAmount = package.price * participants`. -/
theorem createBooking_pending_total (db : DB) (freshId : Nat) (freshCode : String)
    (data : BookingData) (customer : Customer) (travelPackage : TravelPackage)
    (availability : Availability)
    (hc : db.customers.find? (fun c => c.id == data.customerId) = some customer)
    (hp : db.packages.find? (fun p => p.id == data.packageId) = some travelPackage)
    (hact : travelPackage.isActive = true)
    (hav : checkAvailability db data.packageId data.participants = .ok availability)
    (hok : availability.isAvailable = true) :
    ∃ booking db1, createBooking db freshId freshCode data = .ok (booking, db1) ∧
      booking.status = .PENDING ∧
      booking.totalAmount = travelPackage.price * data.participants ∧
      booking.participants = data.participants ∧
      db1.bookings = db.bookings ++ [booking] := by
  simp only [createBooking, hc, hp, hact, hav, hok, Bool.not_true, Bool.false_eq_true,
    if_false]
  exact ⟨_, _, rfl, rfl, rfl, rfl, rfl⟩

/-- C6 witness (Scenario B): 2 participants at price 3500000 give a
PENDING booking of totalAmount 7000000. -/
theorem createBooking_pending_total_witness :
    ∃ booking db1, createBooking dbAvail 2 "BK-2" ⟨1, 1, 2, 0, none⟩ =
        .ok (booking, db1) ∧
      booking.status = .PENDING ∧ booking.totalAmount = 7000000 := by
  obtain ⟨booking, db1, heq, hst, htot, -, -⟩ :=
    createBooking_pending_total dbAvail 2 "BK-2" ⟨1, 1, 2, 0, none⟩ fxCustomer fxPackage
      ⟨true, 3, 2⟩ rfl rfl rfl rfl rfl
  exact ⟨booking, db1, heq, hst, htot⟩

/-! ### C7: terminal bookings reject updates -/

/-- C7: `updateBooking` on a booking whose status is PAID, CONFIRMED or
COMPLETED fails with the 400 `Cannot modify` error; the `Except.error`
result carries no store, so `totalAmount` and `participants` of such a
booking are never changed by any later `updateBooking` call. -/
theorem updateBooking_terminal_rejected (db : DB) (id : Nat) (patch : BookingPatch)
    (booking : Booking)
    (hb : db.bookings.find? (fun b => b.id == id) = some booking)
    (hst : booking.status = .PAID ∨ booking.status = .CONFIRMED ∨
      booking.status = .COMPLETED) :
    updateBooking db id patch =
      .error ⟨"Cannot modify a booking that is already paid or completed", 400⟩ := by
  simp only [updateBooking, hb]
  rw [if_pos hst]

/-- C7 witness: a PAID booking rejects a participant change. -/
theorem updateBooking_terminal_rejected_witness :
    updateBooking dbPaidBooking 1 ⟨some 3, none, none⟩ =
      .error ⟨"Cannot modify a booking that is already paid or completed", 400⟩ :=
  updateBooking_terminal_rejected dbPaidBooking 1 ⟨some 3, none, none⟩
    ⟨1, "BK-1", 1, 1, 2, 7000000, 0, .PAID, none⟩ (by decide) (Or.inl rfl)

/-! ### C8: cancellation of a PAID booking -/

/-- C8 counterexample: the claim says cancelling a PAID booking fails
InvalidState with the status unchanged; in the code only COMPLETED is
blocked, so the PAID booking of `dbPaidBooking` is cancelled
successfully and its status becomes CANCELED. -/
theorem cancelBooking_paid_counterexample :
    dbPaidBooking.bookingStatusOf 1 = some .PAID ∧
    cancelBooking dbPaidBooking 1 =
      Except.ok (⟨1, "BK-1", 1, 1, 2, 7000000, 0, .CANCELED, none⟩,
        { customers := [fxCustomer]
          packages := [fxPackage]
          bookings := [⟨1, "BK-1", 1, 1, 2, 7000000, 0, .CANCELED, none⟩]
          payments := [] }) := ⟨rfl, rfl⟩

/-- C8 (amended): `cancelBooking` fails InvalidState only for COMPLETED
bookings; on a PAID booking it succeeds and sets the status to
CANCELED. -/
theorem cancelBooking_paid_succeeds (db : DB) (id : Nat) (booking : Booking)
    (hb : db.bookings.find? (fun b => b.id == id) = some booking) :
    (booking.status = .PAID →
      ∃ db1, cancelBooking db id =
          Except.ok ({ booking with status := .CANCELED }, db1) ∧
        db1.bookingStatusOf id = some .CANCELED) ∧
    (booking.status = .COMPLETED →
      cancelBooking db id = .error ⟨"Cannot cancel a completed booking", 400⟩) := by
  constructor
  · intro hst
    simp only [cancelBooking, hb]
    rw [if_neg (by rw [hst]; exact fun hcon => BookingStatus.noConfusion hcon)]
    refine ⟨_, rfl, ?_⟩
    show ((db.bookings.map (fun b => if b.id == id then
        { b with status := BookingStatus.CANCELED } else b)).find?
        (fun b => b.id == id)).map Booking.status = some .CANCELED
    rw [find?_booking_update id (fun b => { b with status := BookingStatus.CANCELED })
      (fun b => rfl), hb]
    rfl
  · intro hst
    simp only [cancelBooking, hb]
    rw [if_pos hst]

/-- C8 amended witness: the PAID booking of `dbPaidBooking` is
cancelled. -/
theorem cancelBooking_paid_succeeds_witness :
    ∃ db1, cancelBooking dbPaidBooking 1 =
        Except.ok (⟨1, "BK-1", 1, 1, 2, 7000000, 0, .CANCELED, none⟩, db1) ∧
      db1.bookingStatusOf 1 = some .CANCELED :=
  (cancelBooking_paid_succeeds dbPaidBooking 1
    ⟨1, "BK-1", 1, 1, 2, 7000000, 0, .PAID, none⟩ (by decide)).1 rfl

/-! ### C1: the webhook status-mapping table -/

/-- C1: for a validly signed notification whose order id resolves to a
payment (with its booking), the processor maps the provider status per
the table — (capture, accept) ↦ SUCCESS/PAID, (capture, challenge) ↦
PENDING/unchanged, settlement ↦ SUCCESS/PAID, pending ↦
PENDING/unchanged, deny and cancel ↦ FAILED/CANCELED, expire ↦
EXPIRED/CANCELED, refund ↦ REFUND/unchanged — and `paidAt` is the
current time exactly when the stored payment status is SUCCESS, else
null. -/
theorem processNotification_status_table (sha512 : String → String) (serverKey : String)
    (now : Nat) (db : DB) (n : Notification) (payment : Payment) (booking : Booking)
    (hsig : verifySignature sha512 serverKey n = true)
    (hp : db.payments.find? (fun p => p.midtransOrderId == n.order_id) = some payment)
    (hb : db.bookings.find? (fun b => b.id == payment.bookingId) = some booking) :
    ∃ p1 db1, processNotification sha512 serverKey now db n = .ok (p1, db1) ∧
      (n.transaction_status = "capture" → n.fraud_status = some "accept" →
        p1.status = .SUCCESS ∧ db1.bookingStatusOf payment.bookingId = some .PAID) ∧
      (n.transaction_status = "capture" → n.fraud_status = some "challenge" →
        p1.status = .PENDING ∧ db1.bookings = db.bookings) ∧
      (n.transaction_status = "settlement" →
        p1.status = .SUCCESS ∧ db1.bookingStatusOf payment.bookingId = some .PAID) ∧
      (n.transaction_status = "pending" →
        p1.status = .PENDING ∧ db1.bookings = db.bookings) ∧
      (n.transaction_status = "deny" ∨ n.transaction_status = "cancel" →
        p1.status = .FAILED ∧ db1.bookingStatusOf payment.bookingId = some .CANCELED) ∧
      (n.transaction_status = "expire" →
        p1.status = .EXPIRED ∧ db1.bookingStatusOf payment.bookingId = some .CANCELED) ∧
      (n.transaction_status = "refund" →
        p1.status = .REFUND ∧ db1.bookings = db.bookings) ∧
      p1.paidAt = (if p1.status = .SUCCESS then some now else none) := by
  refine ⟨notifUpdatedPayment payment n now, notifUpdatedDB db n now payment booking,
    processNotification_ok sha512 serverKey now db n payment booking hsig hp hb,
    ?_, ?_, ?_, ?_, ?_, ?_, ?_, rfl⟩
  · intro hts hfs
    constructor
    · show mapPaymentStatus n.transaction_status n.fraud_status = .SUCCESS
      rw [hts, hfs, mapPaymentStatus_capture_accept]
    · rw [notifUpdatedDB_bookingStatusOf db n now payment booking hb, hts, hfs,
        mapBookingStatus_capture_accept]
  · intro hts hfs
    constructor
    · show mapPaymentStatus n.transaction_status n.fraud_status = .PENDING
      rw [hts, hfs]
      exact mapPaymentStatus_capture_other (some "challenge") (by decide)
    · apply notifUpdatedDB_bookings_of_same
      rw [hts, hfs]
      exact mapBookingStatus_capture_other (some "challenge") booking.status (by decide)
  · intro hts
    constructor
    · show mapPaymentStatus n.transaction_status n.fraud_status = .SUCCESS
      rw [hts, mapPaymentStatus_settlement]
    · rw [notifUpdatedDB_bookingStatusOf db n now payment booking hb, hts,
        mapBookingStatus_settlement]
  · intro hts
    constructor
    · show mapPaymentStatus n.transaction_status n.fraud_status = .PENDING
      rw [hts, mapPaymentStatus_pending]
    · apply notifUpdatedDB_bookings_of_same
      rw [hts]
      exact mapBookingStatus_pending n.fraud_status booking.status
  · intro hts
    rcases hts with hts | hts
    · constructor
      · show mapPaymentStatus n.transaction_status n.fraud_status = .FAILED
        rw [hts, mapPaymentStatus_deny]
      · rw [notifUpdatedDB_bookingStatusOf db n now payment booking hb, hts,
          mapBookingStatus_deny]
    · constructor
      · show mapPaymentStatus n.transaction_status n.fraud_status = .FAILED
        rw [hts, mapPaymentStatus_cancel]
      · rw [notifUpdatedDB_bookingStatusOf db n now payment booking hb, hts,
          mapBookingStatus_cancel]
  · intro hts
    constructor
    · show mapPaymentStatus n.transaction_status n.fraud_status = .EXPIRED
      rw [hts, mapPaymentStatus_expire]
    · rw [notifUpdatedDB_bookingStatusOf db n now payment booking hb, hts,
        mapBookingStatus_expire]
  · intro hts
    constructor
    · show mapPaymentStatus n.transaction_status n.fraud_status = .REFUND
      rw [hts, mapPaymentStatus_refund]
    · apply notifUpdatedDB_bookings_of_same
      rw [hts]
      exact mapBookingStatus_refund n.fraud_status booking.status

/-- C1 witness: a settlement notification on `dbPendingPayment` stores
SUCCESS with `paidAt = now` and marks the booking PAID. -/
theorem processNotification_status_table_witness :
    ∃ p1 db1, processNotification (fun s => s) "key" 5 dbPendingPayment settleNotif =
        .ok (p1, db1) ∧
      p1.status = .SUCCESS ∧ db1.bookingStatusOf 1 = some .PAID ∧
      p1.paidAt = some 5 := by
  obtain ⟨p1, db1, heq, -, -, hset, -, -, -, -, hpaid⟩ :=
    processNotification_status_table (fun s => s) "key" 5 dbPendingPayment settleNotif
      ⟨1, 1, "ORD-1", some "tok", some "url", 7000000, .PENDING, none, none, 99⟩
      ⟨1, "BK-1", 1, 1, 2, 7000000, 0, .PENDING, none⟩ (by decide) (by decide) (by decide)
    -- the payment of `dbPendingPayment` has `bookingId = 1`
  obtain ⟨hst, hbk⟩ := hset rfl
  refine ⟨p1, db1, heq, hst, hbk, ?_⟩
  rw [hpaid, if_pos hst]

/-! ### C10: the silent default branch of the mapping -/

/-- C10: a validly signed notification whose `transaction_status` is
outside the mapped set — or is `capture` with a fraud status other than
`accept` / `challenge` — is not rejected: the payment is silently reset
to PENDING with `paidAt` null, the payload `payment_type` is stored,
and neither bookings nor customers change. -/
theorem processNotification_unknown_defaults (sha512 : String → String)
    (serverKey : String) (now : Nat) (db : DB) (n : Notification)
    (payment : Payment) (booking : Booking)
    (hsig : verifySignature sha512 serverKey n = true)
    (hp : db.payments.find? (fun p => p.midtransOrderId == n.order_id) = some payment)
    (hb : db.bookings.find? (fun b => b.id == payment.bookingId) = some booking)
    (hts :
      (n.transaction_status ≠ "capture" ∧ n.transaction_status ≠ "settlement" ∧
        n.transaction_status ≠ "pending" ∧ n.transaction_status ≠ "deny" ∧
        n.transaction_status ≠ "cancel" ∧ n.transaction_status ≠ "expire" ∧
        n.transaction_status ≠ "refund") ∨
      (n.transaction_status = "capture" ∧ n.fraud_status ≠ some "accept" ∧
        n.fraud_status ≠ some "challenge")) :
    ∃ p1 db1, processNotification sha512 serverKey now db n = .ok (p1, db1) ∧
      p1.status = .PENDING ∧ p1.paidAt = none ∧
      p1.paymentType = some n.payment_type ∧
      db1.bookings = db.bookings ∧ db1.customers = db.customers := by
  have hps : mapPaymentStatus n.transaction_status n.fraud_status = .PENDING := by
    rcases hts with ⟨h1, h2, h3, h4, h5, h6, h7⟩ | ⟨hcap, hfs, -⟩
    · exact mapPaymentStatus_other _ _ (beq_eq_false_iff_ne.mpr h1)
        (beq_eq_false_iff_ne.mpr h2) (beq_eq_false_iff_ne.mpr h3)
        (beq_eq_false_iff_ne.mpr h4) (beq_eq_false_iff_ne.mpr h5)
        (beq_eq_false_iff_ne.mpr h6) (beq_eq_false_iff_ne.mpr h7)
    · rw [hcap]
      exact mapPaymentStatus_capture_other _ (beq_eq_false_iff_ne.mpr hfs)
  have hbs : mapBookingStatus n.transaction_status n.fraud_status booking.status
      = booking.status := by
    rcases hts with ⟨h1, h2, -, h4, h5, h6, -⟩ | ⟨hcap, hfs, -⟩
    · exact mapBookingStatus_other _ _ _ (beq_eq_false_iff_ne.mpr h1)
        (beq_eq_false_iff_ne.mpr h2) (beq_eq_false_iff_ne.mpr h4)
        (beq_eq_false_iff_ne.mpr h5) (beq_eq_false_iff_ne.mpr h6)
    · rw [hcap]
      exact mapBookingStatus_capture_other _ _ (beq_eq_false_iff_ne.mpr hfs)
  refine ⟨notifUpdatedPayment payment n now, notifUpdatedDB db n now payment booking,
    processNotification_ok sha512 serverKey now db n payment booking hsig hp hb,
    hps, ?_, rfl,
    notifUpdatedDB_bookings_of_same db n now payment booking hbs,
    notifUpdatedDB_customers_of_same db n now payment booking hbs⟩
  show (if mapPaymentStatus n.transaction_status n.fraud_status = .SUCCESS
    then some now else none) = none
  rw [hps]
  rfl

/-- An unmapped provider status for order `ORD-1`, validly signed for
the identity hash and server key `key`. -/
def oddNotif : Notification :=
  { order_id := "ORD-1", transaction_status := "chargeback", fraud_status := none
    payment_type := "credit_card", gross_amount := "7000000.00", status_code := "200"
    signature_key := "ORD-12007000000.00key" }

/-- C10 witness: a `chargeback` status is accepted and resets the
payment to PENDING. -/
theorem processNotification_unknown_defaults_witness :
    ∃ p1 db1, processNotification (fun s => s) "key" 3 dbPendingPayment oddNotif =
        .ok (p1, db1) ∧
      p1.status = .PENDING ∧ p1.paidAt = none ∧
      p1.paymentType = some "credit_card" ∧
      db1.bookings = dbPendingPayment.bookings ∧
      db1.customers = dbPendingPayment.customers :=
  processNotification_unknown_defaults (fun s => s) "key" 3 dbPendingPayment oddNotif
    ⟨1, 1, "ORD-1", some "tok", some "url", 7000000, .PENDING, none, none, 99⟩
    ⟨1, "BK-1", 1, 1, 2, 7000000, 0, .PENDING, none⟩ (by decide) (by decide) (by decide)
    (Or.inl (by decide))

/-! ### C3: a terminal payment status regresses to PENDING -/

/-- A store whose payment already reached SUCCESS (booking PAID,
customer tier ACTIVE): the state reached by a settlement delivery. -/
def dbSuccessPayment : DB :=
  { customers := [⟨1, "Alice", "alice@example.com", .ACTIVE⟩]
    packages := [fxPackage]
    bookings := [⟨1, "BK-1", 1, 1, 2, 7000000, 0, .PAID, none⟩]
    payments := [⟨1, 1, "ORD-1", some "tok", some "url", 7000000, .SUCCESS,
      some "bank_transfer", some 1, 99⟩] }

/-- A late `pending` notification for the same order, validly
signed (the signature does not cover the transaction status). -/
def pendingNotif : Notification := { settleNotif with transaction_status := "pending" }

/-- C3: evaluation of the code at the failing input. The stored payment
status is terminal (SUCCESS), yet processing a validly signed `pending`
notification for the same order succeeds and writes the payment status
back to PENDING, also clearing `paidAt` — the claimed no-regression
guarantee does not hold in the code. -/
theorem processNotification_terminal_regression :
    (dbSuccessPayment.payments.find? (fun p => p.midtransOrderId == "ORD-1")).map
        Payment.status = some .SUCCESS ∧
    processNotification (fun s => s) "key" 2 dbSuccessPayment pendingNotif =
      Except.ok
        (⟨1, 1, "ORD-1", some "tok", some "url", 7000000, .PENDING,
          some "bank_transfer", none, 99⟩,
        { dbSuccessPayment with
          payments := [⟨1, 1, "ORD-1", some "tok", some "url", 7000000, .PENDING,
            some "bank_transfer", none, 99⟩] }) := ⟨rfl, rfl⟩

/-! ### C2: webhook redelivery -/

/-- The store `dbPendingPayment` after a settlement delivery at
time 1. -/
def dbAfterSettle : DB :=
  { customers := [⟨1, "Alice", "alice@example.com", .ACTIVE⟩]
    packages := [fxPackage]
    bookings := [⟨1, "BK-1", 1, 1, 2, 7000000, 0, .PAID, none⟩]
    payments := [⟨1, 1, "ORD-1", some "tok", some "url", 7000000, .SUCCESS,
      some "bank_transfer", some 1, 99⟩] }

/-- C2 counterexample: redelivering the same settlement notification at
a later clock time rewrites `paidAt` to the new current time, so the
payment state after the second call differs from the state after the
first call — the redelivery is not a strict no-op as claimed. -/
theorem processNotification_redelivery_counterexample :
    processNotification (fun s => s) "key" 1 dbPendingPayment settleNotif =
      Except.ok (⟨1, 1, "ORD-1", some "tok", some "url", 7000000, .SUCCESS,
        some "bank_transfer", some 1, 99⟩, dbAfterSettle) ∧
    processNotification (fun s => s) "key" 2 dbAfterSettle settleNotif =
      Except.ok (⟨1, 1, "ORD-1", some "tok", some "url", 7000000, .SUCCESS,
        some "bank_transfer", some 2, 99⟩,
        { dbAfterSettle with
          payments := [⟨1, 1, "ORD-1", some "tok", some "url", 7000000, .SUCCESS,
            some "bank_transfer", some 2, 99⟩] }) ∧
    ({ dbAfterSettle with
        payments := [⟨1, 1, "ORD-1", some "tok", some "url", 7000000, .SUCCESS,
          some "bank_transfer", some 2, 99⟩] } : DB) ≠ dbAfterSettle :=
  ⟨rfl, rfl, by decide⟩

/-- C2 (amended): redelivering a notification that maps to the same
payment / booking statuses raises no error and repeats no booking or
customer side effect: the second call leaves the bookings and customers
exactly as after the first call and stores the same payment status; the
only difference is that `paidAt` is overwritten with the current time of
the second delivery when the status is SUCCESS — so the state is
strictly identical whenever the second delivery carries the same
timestamp or the resulting status is not SUCCESS. -/
theorem processNotification_redelivery (sha512 : String → String) (serverKey : String)
    (now₁ now₂ : Nat) (db : DB) (n : Notification) (payment : Payment) (booking : Booking)
    (hsig : verifySignature sha512 serverKey n = true)
    (hp : db.payments.find? (fun p => p.midtransOrderId == n.order_id) = some payment)
    (hb : db.bookings.find? (fun b => b.id == payment.bookingId) = some booking) :
    ∃ p1 db1 p2 db2,
      processNotification sha512 serverKey now₁ db n = .ok (p1, db1) ∧
      processNotification sha512 serverKey now₂ db1 n = .ok (p2, db2) ∧
      p2.status = p1.status ∧
      db2.bookings = db1.bookings ∧
      db2.customers = db1.customers ∧
      p2 = { p1 with paidAt := if p1.status = .SUCCESS then some now₂ else none } ∧
      (now₂ = now₁ ∨ p1.status ≠ .SUCCESS → p2 = p1 ∧ db2 = db1) := by
  have hq0 := List.find?_some hp
  have hq : (payment.midtransOrderId == n.order_id) = true := hq0
  -- the second lookup finds the rewritten payment row
  have hp2 : (notifUpdatedDB db n now₁ payment booking).payments.find?
      (fun p => p.midtransOrderId == n.order_id)
        = some (notifUpdatedPayment payment n now₁) := by
    rw [notifUpdatedDB_payments]
    exact find?_payment_replace _ payment.id _ hq db.payments payment hp rfl
  -- the second lookup finds a booking row already carrying the mapped status
  have hb1 : ∃ booking1,
      (notifUpdatedDB db n now₁ payment booking).bookings.find?
        (fun b => b.id == payment.bookingId) = some booking1 ∧
      booking1.status = mapBookingStatus n.transaction_status n.fraud_status
        booking.status := by
    by_cases h : mapBookingStatus n.transaction_status n.fraud_status booking.status
        = booking.status
    · refine ⟨booking, ?_, h.symm⟩
      rw [notifUpdatedDB_bookings_of_same db n now₁ payment booking h]
      exact hb
    · refine ⟨{ booking with
        status := mapBookingStatus n.transaction_status n.fraud_status booking.status },
        ?_, rfl⟩
      rw [notifUpdatedDB_bookings_of_diff db n now₁ payment booking h,
        find?_booking_update payment.bookingId
          (fun b => { b with
            status := mapBookingStatus n.transaction_status n.fraud_status booking.status })
          (fun b => rfl), hb]
      rfl
  obtain ⟨booking1, hb2, hst1⟩ := hb1
  -- the second mapping keeps the already-mapped booking status
  have hsame2 : mapBookingStatus n.transaction_status n.fraud_status booking1.status
      = booking1.status := by
    rw [hst1]
    exact mapBookingStatus_idem _ _ _
  refine ⟨notifUpdatedPayment payment n now₁, notifUpdatedDB db n now₁ payment booking,
    notifUpdatedPayment (notifUpdatedPayment payment n now₁) n now₂,
    notifUpdatedDB (notifUpdatedDB db n now₁ payment booking) n now₂
      (notifUpdatedPayment payment n now₁) booking1,
    processNotification_ok sha512 serverKey now₁ db n payment booking hsig hp hb,
    processNotification_ok sha512 serverKey now₂ _ n _ booking1 hsig hp2 hb2,
    rfl,
    notifUpdatedDB_bookings_of_same _ n now₂ _ booking1 hsame2,
    notifUpdatedDB_customers_of_same _ n now₂ _ booking1 hsame2,
    rfl, ?_⟩
  intro hcase
  have hpayEq : notifUpdatedPayment (notifUpdatedPayment payment n now₁) n now₂
      = notifUpdatedPayment payment n now₁ := by
    rcases hcase with h | h
    · rw [h]
      rfl
    · have hns : mapPaymentStatus n.transaction_status n.fraud_status ≠ .SUCCESS := h
      simp only [notifUpdatedPayment, if_neg hns]
  refine ⟨hpayEq, ?_⟩
  -- with identical payment rows, the second update leaves the store unchanged
  have hdb2 : notifUpdatedDB (notifUpdatedDB db n now₁ payment booking) n now₂
      (notifUpdatedPayment payment n now₁) booking1
        = { notifUpdatedDB db n now₁ payment booking with
            payments := (notifUpdatedDB db n now₁ payment booking).payments.map
              (fun p => if p.id == payment.id
                then notifUpdatedPayment (notifUpdatedPayment payment n now₁) n now₂
                else p) } := by
    rw [notifUpdatedDB_of_same _ n now₂ _ booking1 hsame2]
    rfl
  rw [hdb2, hpayEq, notifUpdatedDB_payments db n now₁ payment booking,
    map_payment_replace_twice payment.id (notifUpdatedPayment payment n now₁)
      (notifUpdatedPayment payment n now₁) rfl db.payments,
    ← notifUpdatedDB_payments db n now₁ payment booking]

/-- C2 amended witness: redelivering the settlement notification at the
same timestamp reproduces the identical state and raises no error. -/
theorem processNotification_redelivery_witness :
    ∃ p1 db1, processNotification (fun s => s) "key" 1 dbPendingPayment settleNotif =
        .ok (p1, db1) ∧
      processNotification (fun s => s) "key" 1 db1 settleNotif = .ok (p1, db1) := by
  obtain ⟨p1, db1, p2, db2, h1, h2, -, -, -, -, hsame⟩ :=
    processNotification_redelivery (fun s => s) "key" 1 1 dbPendingPayment settleNotif
      ⟨1, 1, "ORD-1", some "tok", some "url", 7000000, .PENDING, none, none, 99⟩
      ⟨1, "BK-1", 1, 1, 2, 7000000, 0, .PENDING, none⟩ (by decide) (by decide) (by decide)
  obtain ⟨hpEq, hdEq⟩ := hsame (Or.inl rfl)
  rw [hpEq, hdEq] at h2
  exact ⟨p1, db1, h1, h2⟩

/-! ### C9: payment initiation -/

/-- The `Payment already initiated` path of the controller: a PENDING
booking that already carries a PENDING payment returns the stored token
and URL and leaves the store untouched. -/
theorem initiatePayment_existing_pending (provider : Option ProviderTransaction)
    (now freshPaymentId : Nat) (db : DB) (user : ReqUser) (bookingId : Nat)
    (booking : Booking) (existingPayment : Payment)
    (hb : db.bookings.find? (fun b => b.id == bookingId) = some booking)
    (hownb : (user.type == "CUSTOMER" && booking.customerId != user.id) = false)
    (hpend : booking.status = .PENDING)
    (hpp : db.payments.find? (fun p => p.bookingId == bookingId) = some existingPayment)
    (hpstat : existingPayment.status = .PENDING) :
    initiatePayment provider now freshPaymentId db user bookingId =
      .ok (⟨200, true, "Payment already initiated",
        existingPayment.midtransToken, existingPayment.paymentUrl⟩, db) := by
  simp only [initiatePayment, hb, hownb, Bool.false_eq_true, if_false, hpp]
  rw [if_neg (not_not_intro hpend), if_pos hpstat]

/-- C9: `initiatePayment` answers 400 for every booking that is not
PENDING (leaving the store untouched); and on a PENDING booking with no
payment row yet, a successful provider call persists exactly one
PENDING payment row and returns its token / URL, after which any
repeated call returns the same token / URL out of the stored row and
creates no second payment row. -/
theorem initiatePayment_spec (provider : Option ProviderTransaction)
    (now freshPaymentId : Nat) (db : DB) (user : ReqUser) (bookingId : Nat)
    (booking : Booking)
    (hb : db.bookings.find? (fun b => b.id == bookingId) = some booking)
    (hown : user.type = "CUSTOMER" → booking.customerId = user.id) :
    (booking.status ≠ .PENDING →
      initiatePayment provider now freshPaymentId db user bookingId =
        .ok (⟨400, false, "Payment can only be initiated for pending bookings",
          none, none⟩, db)) ∧
    (booking.status = .PENDING →
      db.payments.find? (fun p => p.bookingId == bookingId) = none →
      ∀ token url, provider = some ⟨token, url⟩ →
      ∃ db1, initiatePayment provider now freshPaymentId db user bookingId =
          .ok (⟨200, true, "Payment initiated successfully", some token, some url⟩, db1) ∧
        db1.bookings = db.bookings ∧
        db1.payments.length = db.payments.length + 1 ∧
        ∀ provider2 now2 freshId2,
          initiatePayment provider2 now2 freshId2 db1 user bookingId =
            .ok (⟨200, true, "Payment already initiated", some token, some url⟩, db1)) := by
  have hownb : (user.type == "CUSTOMER" && booking.customerId != user.id) = false := by
    by_cases hc : user.type = "CUSTOMER"
    · rw [hown hc]
      simp
    · simp [beq_eq_false_iff_ne.mpr hc]
  have hid0 := List.find?_some hb
  have hid : (booking.id == bookingId) = true := hid0
  constructor
  · intro hnp
    simp only [initiatePayment, hb, hownb, Bool.false_eq_true, if_false]
    rw [if_pos hnp]
  · intro hpend hnone token url hprov
    simp only [initiatePayment, hb, hownb, Bool.false_eq_true, if_false, hnone]
    rw [if_neg (not_not_intro hpend)]
    simp only [initiatePaymentCreate, createSnapTransaction, hprov]
    refine ⟨_, rfl, rfl, by simp, ?_⟩
    intro provider2 now2 freshId2
    exact initiatePayment_existing_pending provider2 now2 freshId2 _ user bookingId booking
      ⟨freshPaymentId, booking.id, "TRV-" ++ booking.bookingCode ++ "-" ++ toString now,
        some token, some url, booking.totalAmount, .PENDING, none, none,
        now + 24 * 60 * 60 * 1000⟩
      hb hownb hpend
      (find?_append_singleton_of_none (fun p => p.bookingId == bookingId)
        ⟨freshPaymentId, booking.id, "TRV-" ++ booking.bookingCode ++ "-" ++ toString now,
          some token, some url, booking.totalAmount, .PENDING, none, none,
          now + 24 * 60 * 60 * 1000⟩
        hid db.payments hnone) rfl

/-- C9 witness: on `dbAvail` (booking 1 is PENDING, no payment row), a
staff call initiates a payment and the repeated call returns the same
token / URL with no second row. -/
theorem initiatePayment_spec_witness :
    ∃ db1, initiatePayment (some ⟨"tok", "url"⟩) 7 1 dbAvail ⟨"ADMIN", 9⟩ 1 =
        .ok (⟨200, true, "Payment initiated successfully", some "tok", some "url"⟩, db1) ∧
      db1.bookings = dbAvail.bookings ∧
      db1.payments.length = dbAvail.payments.length + 1 ∧
      ∀ provider2 now2 freshId2,
        initiatePayment provider2 now2 freshId2 db1 ⟨"ADMIN", 9⟩ 1 =
          .ok (⟨200, true, "Payment already initiated", some "tok", some "url"⟩, db1) :=
  (initiatePayment_spec (some ⟨"tok", "url"⟩) 7 1 dbAvail ⟨"ADMIN", 9⟩ 1
    ⟨1, "BK-1", 1, 1, 7, 24500000, 0, .PENDING, none⟩ (by decide)
    (fun hc => absurd hc (by decide))).2 rfl rfl "tok" "url" rfl

end TravelBE
